import Mathlib

/-!
Verification of the orchestration core of the AI-FlightChat repository.

Shallow embedding of:
  * `parse_user_message`, `to_iata` and the lookup tables (src/agents.py),
  * `AmadeusFlightTool.search` query building and response normalization
    (src/tools/amadeus.py),
  * `Orchestrator.handle` (src/agents.py), with the external capabilities
    (dateparser, GPT chat, Claude translation, the flight-offers HTTP call)
    modelled as oracle parameters of a `HandleEnv`.

Strings are handled through their character lists.  Python's `str.lower`,
`str.upper`, `str.isalpha` and `str.strip` are modelled on the alphabet the
program actually uses (ASCII plus the Turkish letters appearing in the
vocabularies of src/agents.py); characters outside that alphabet are left
unchanged by the case maps.  Calendar dates are modelled as integer day
ordinals, so `timedelta(days=7)` is `+ 7` and `date.isoformat` is the
(injective) decimal rendering.
-/

/-- Lower-case alphabet used by the program: ASCII a-z plus the Turkish
letters occurring in the keyword lists and lookup tables. -/
def lowerAlpha : List Char := "abcdefghijklmnopqrstuvwxyzçğıöşü".data

/-- Upper-case alphabet: ASCII A-Z plus the upper-case Turkish letters
(`İ` is the upper-case dotted i). -/
def upperAlpha : List Char := "ABCDEFGHIJKLMNOPQRSTUVWXYZÇĞIİÖŞÜ".data

/-- Python `str.isalpha`, restricted to the program's alphabet. -/
def pyIsAlpha (c : Char) : Bool := lowerAlpha.contains c || upperAlpha.contains c

/-- Lower-to-upper character table (Python `str.upper` acts characterwise
on this alphabet; `ı`.upper() = `I`). -/
def upperTable : List (Char × Char) :=
  [('a','A'),('b','B'),('c','C'),('d','D'),('e','E'),('f','F'),('g','G'),
   ('h','H'),('i','I'),('j','J'),('k','K'),('l','L'),('m','M'),('n','N'),
   ('o','O'),('p','P'),('q','Q'),('r','R'),('s','S'),('t','T'),('u','U'),
   ('v','V'),('w','W'),('x','X'),('y','Y'),('z','Z'),
   ('ç','Ç'),('ğ','Ğ'),('ı','I'),('ö','Ö'),('ş','Ş'),('ü','Ü')]

/-- Python `str.upper` on one character: table entry, otherwise unchanged. -/
def pyUpperChar (c : Char) : Char :=
  match upperTable.find? (fun p => p.1 == c) with
  | some p => p.2
  | none => c

/-- Upper-to-lower character table.  Python lowers `İ` (U+0130) to the two
code points `i` followed by the combining dot above (U+0307). -/
def lowerTable : List (Char × List Char) :=
  [('A',['a']),('B',['b']),('C',['c']),('D',['d']),('E',['e']),('F',['f']),
   ('G',['g']),('H',['h']),('I',['i']),('J',['j']),('K',['k']),('L',['l']),
   ('M',['m']),('N',['n']),('O',['o']),('P',['p']),('Q',['q']),('R',['r']),
   ('S',['s']),('T',['t']),('U',['u']),('V',['v']),('W',['w']),('X',['x']),
   ('Y',['y']),('Z',['z']),
   ('Ç',['ç']),('Ğ',['ğ']),('İ',['i', Char.ofNat 775]),('Ö',['ö']),
   ('Ş',['ş']),('Ü',['ü'])]

/-- Python `str.lower` on one character (as a character list, because of
`İ`). -/
def pyLowerChar (c : Char) : List Char :=
  match lowerTable.find? (fun p => p.1 == c) with
  | some p => p.2
  | none => [c]

/-- Python `str.lower` on a character list. -/
def pyLower (s : List Char) : List Char := s.flatMap pyLowerChar

/-- Python `str.strip`: drop leading and trailing whitespace. -/
def pyStrip (s : List Char) : List Char :=
  ((s.dropWhile Char.isWhitespace).reverse.dropWhile Char.isWhitespace).reverse

/-- Python's `sub in s` substring test. -/
def containsSub (s pat : List Char) : Bool :=
  s.tails.any (fun t => pat.isPrefixOf t)

/-! ## Intent parser (src/agents.py, `parse_user_message`) -/

/-- The city alternatives of the regex
`(istanbul|sabiha|ankara|izmir|paris|londra|london|berlin|new york)`,
in pattern order. -/
def cityPatterns : List (List Char) :=
  ["istanbul".data, "sabiha".data, "ankara".data, "izmir".data, "paris".data,
   "londra".data, "london".data, "berlin".data, "new york".data]

/-- `re.findall` for an alternation of literals: scan left to right; at each
position take the first alternative that matches, consume it, and continue
after it; otherwise advance one character.  The fuel starts at the length of
the text, which suffices because every pattern is nonempty. -/
def findAllAux : Nat → List Char → List (List Char)
  | 0, _ => []
  | _, [] => []
  | fuel + 1, c :: rest =>
    match cityPatterns.find? (fun p => p.isPrefixOf (c :: rest)) with
    | some p => p :: findAllAux fuel ((c :: rest).drop p.length)
    | none => findAllAux fuel rest

/-- `re.findall(r"(istanbul|sabiha|ankara|izmir|paris|londra|london|berlin|new york)", s)`. -/
def findAll (s : List Char) : List (List Char) := findAllAux s.length s

/-- The character class `[a-zçğıöşü]` of the date-range regex. -/
def isMonthChar (c : Char) : Bool :=
  ('a' ≤ c && c ≤ 'z') || c == 'ç' || c == 'ğ' || c == 'ı' || c == 'ö' ||
    c == 'ş' || c == 'ü'

/-- Match `\d{n} [a-zçğıöşü]+` (exactly `n` digits, a space, then a maximal
nonempty run of month characters) at the head of `s`; return the matched text
and the remainder. -/
def matchDMn (n : Nat) (s : List Char) : Option (List Char × List Char) :=
  let ds := s.take n
  if ds.length == n && ds.all Char.isDigit then
    match s.drop n with
    | ' ' :: r =>
      let ls := r.takeWhile isMonthChar
      if ls.isEmpty then none
      else some (ds ++ ' ' :: ls, r.dropWhile isMonthChar)
    | _ => none
  else none

/-- Match one group `\d{1,2} [a-zçğıöşü]+` at the head of `s`: the greedy
`\d{1,2}` tries two digits first, then backtracks to one. -/
def matchDM (s : List Char) : Option (List Char × List Char) :=
  (matchDMn 2 s).orElse (fun _ => matchDMn 1 s)

/-- The lazy `.*?` followed by the second group: find the first position at
or after `s` where the group matches, without crossing a newline (`.` does
not match `\n`; the group itself contains no newline). -/
def searchG2 : List Char → Option (List Char)
  | [] => none
  | c :: r =>
    match matchDM (c :: r) with
    | some (g, _) => some g
    | none => if c == '\n' then none else searchG2 r

/-- `re.search(r"(\d{1,2} [a-zçğıöşü]+).*?(\d{1,2} [a-zçğıöşü]+)", s)`:
leftmost start position where group 1 matches and group 2 is found after it;
returns the two captured groups.  (Shrinking the greedy parts of group 1
cannot enable an otherwise impossible group-2 match, because group 2 starts
with a digit and the characters given back are letters, or a digit position
at which group 1's one-digit alternative already failed; so no backtracking
beyond the `\d{1,2}` alternation inside `matchDM` is needed.) -/
def rangeSearch : List Char → Option (List Char × List Char)
  | [] => none
  | c :: r =>
    match matchDM (c :: r) with
    | some (g1, rest) =>
      match searchG2 rest with
      | some g2 => some (g1, g2)
      | none => rangeSearch r
    | none => rangeSearch r

/-- The flight keywords `["uç", "uçak", "flight", "bilet", "fly"]`. -/
def keywords : List (List Char) :=
  ["uç".data, "uçak".data, "flight".data, "bilet".data, "fly".data]

/-- `any(k in lower for k in keywords)`. -/
def hasKeyword (lower : List Char) : Bool :=
  keywords.any (fun k => containsSub lower k)

/-- The `ParsedIntent` pydantic model of src/agents.py.  Calendar dates are
integer day ordinals. -/
structure ParsedIntent where
  intent : String
  origin : Option String := none
  destination : Option String := none
  date_from : Option Int := none
  date_to : Option Int := none
  adults : Nat := 1
  currency : String := "EUR"
deriving DecidableEq, Repr

/-- The city-assignment step of `parse_user_message` (lines 42-47): the
first match becomes the origin and the second the destination when there are
at least two, a single match is the destination only. -/
def extractCities (lower : List Char) : Option String × Option String :=
  match findAll lower with
  | [] => (none, none)
  | [c] => ((none : Option String), some (String.mk c))
  | c1 :: c2 :: _ => (some (String.mk c1), some (String.mk c2))

/-- The date-extraction step of `parse_user_message` (lines 49-60): on a
range-regex match the two captured groups are parsed independently,
otherwise the whole lowered message is parsed as `date_from` only. -/
def extractDates (dateOracle : String → Option Int) (lower : List Char) :
    Option Int × Option Int :=
  match rangeSearch lower with
  | some (g1, g2) => (dateOracle (String.mk g1), dateOracle (String.mk g2))
  | none => (dateOracle (String.mk lower), none)

/-- `parse_user_message` (src/agents.py lines 33-74).  `dateOracle` models
`dateparser.parse(..., languages=["tr","en"]).date()`: `none` is Python's
`None` (the phrase did not resolve to a date). -/
def parse_user_message (dateOracle : String → Option Int) (msg : String) :
    ParsedIntent :=
  let lower := pyLower (pyStrip msg.data)
  let oc := extractCities lower
  let dates := extractDates dateOracle lower
  if hasKeyword lower && (oc.2.isSome || oc.1.isSome) then
    { intent := "flight_search", origin := oc.1, destination := oc.2,
      date_from := dates.1, date_to := dates.2, adults := 1,
      currency := "EUR" }
  else
    { intent := "chitchat" }

/-! ## Location/Code Resolver (src/agents.py, `to_iata` and tables) -/

/-- The `_IATA_TO_CITY` dict of src/agents.py. -/
def _IATA_TO_CITY : List (String × String) :=
  [("LON", "London"), ("IST", "Istanbul"), ("SAW", "Istanbul (Sabiha Gökçen)"),
   ("ESB", "Ankara"), ("ADB", "Izmir"), ("PAR", "Paris"), ("BER", "Berlin"),
   ("NYC", "New York")]

/-- The `_IATA_LUT` dict of src/agents.py. -/
def _IATA_LUT : List (String × String) :=
  [("istanbul", "IST"), ("ıstanbul", "IST"), ("sabiha", "SAW"),
   ("ankara", "ESB"), ("izmir", "ADB"), ("paris", "PAR"), ("londra", "LON"),
   ("london", "LON"), ("berlin", "BER"), ("new york", "NYC")]

/-- Python `dict.get(k, d)` on an association list. -/
def dictGet (tbl : List (String × String)) (k d : String) : String :=
  match tbl.find? (fun kv => kv.1 == k) with
  | some kv => kv.2
  | none => d

/-- `to_iata` (src/agents.py lines 100-110).  `none` and the empty string are
both falsy in Python's `if not code_or_name`. -/
def to_iata (code_or_name : Option String) (default : String) : String :=
  match code_or_name with
  | none => default
  | some s =>
    if s.data.isEmpty then default
    else
      let val := pyStrip s.data
      if val.length == 3 && val.all pyIsAlpha then
        String.mk (val.map pyUpperChar)
      else
        dictGet _IATA_LUT (String.mk (pyLower val)) default

/-! ## Flight Search Gateway (src/tools/amadeus.py, `AmadeusFlightTool.search`)

The HTTP transport and OAuth token handling are external; we embed the two
deterministic parts of `search`: the query parameters it sends, and the
normalization of the JSON payload into result rows.  JSON offers are
modelled by structures holding exactly the fields the code accesses with
`[...]` (required: a `KeyError` on absence is outside the model) or `.get`
(optional). -/

/-- One element of a `segments` array: the fields read by `search`. -/
structure Segment where
  depAt : String
  depIata : String
  arrAt : String
  arrIata : String
  carrierCode : Option String
deriving DecidableEq, Repr

/-- One element of an `itineraries` array. -/
structure Itinerary where
  segments : List Segment
deriving DecidableEq, Repr

/-- One raw offer: `itineraries` plus `offer.get("price", {}).get("grandTotal")`. -/
structure RawOffer where
  itineraries : List Itinerary
  grandTotal : Option String
deriving DecidableEq, Repr

/-- One normalized result row (the dict appended to `results`). -/
structure FlightRow where
  date : String
  departure_time : String
  arrival_time : String
  origin : String
  destination : String
  airline : Option String
  price : String
  link : String
deriving DecidableEq, Repr

/-- Python `f"..."` rendering of an optional string (`None` prints as "None"). -/
def pyShowOpt (o : Option String) : String := o.getD "None"

/-- Python `str.split` with a one-character separator: splits at every
occurrence of `sep`; the result is always nonempty. -/
def splitOnChar (sep : Char) : List Char → List (List Char)
  | [] => [[]]
  | c :: r =>
    let rest := splitOnChar sep r
    if c == sep then [] :: rest
    else
      match rest with
      | h :: t => (c :: h) :: t
      | [] => [[c]]

/-- Build one row from the first leg of an offer: `dep.split("T")` and
`arr.split("T")` are indexed at 1, which in Python raises `IndexError` when
the timestamp has no `T`; that failure is `none` here. -/
def rowFromLeg (currency : String) (grandTotal : Option String)
    (leg : Segment) : Option FlightRow :=
  let depParts := splitOnChar 'T' leg.depAt.data
  let arrParts := splitOnChar 'T' leg.arrAt.data
  match depParts.get? 1, arrParts.get? 1 with
  | some depTime, some arrTime =>
    some { date := String.mk (depParts.headD []),
           departure_time := String.mk (depTime.take 5),
           arrival_time := String.mk (arrTime.take 5),
           origin := leg.depIata,
           destination := leg.arrIata,
           airline := leg.carrierCode,
           price := pyShowOpt grandTotal ++ " " ++ currency,
           link := "" }
  | _, _ => none

/-- `itineraries[0]["segments"][0]` as a partial lookup: `none` when the
offer has no itineraries, or its first itinerary has no segments. -/
def firstLeg? (o : RawOffer) : Option Segment :=
  match o.itineraries with
  | [] => none
  | it :: _ => it.segments.head?

/-- The per-offer step of the normalization loop.  `ok none` is the
`continue` for an offer with an empty `itineraries` list; `error ()` is the
uncaught `IndexError` from `itineraries[0]["segments"][0]` (first itinerary
has no segments) or from `split("T")[1]`. -/
def normalizeOffer (currency : String) (o : RawOffer) :
    Except Unit (Option FlightRow) :=
  match o.itineraries with
  | [] => .ok none
  | it :: _ =>
    match it.segments with
    | [] => .error ()
    | leg :: _ =>
      match rowFromLeg currency o.grandTotal leg with
      | some row => .ok (some row)
      | none => .error ()

/-- The normalization loop of `search` (src/tools/amadeus.py lines 50-69):
one row per surviving offer, in upstream order; an exception aborts the
whole call. -/
def normalizeOffers (currency : String) : List RawOffer →
    Except Unit (List FlightRow)
  | [] => .ok []
  | o :: rest => do
    let r ← normalizeOffer currency o
    let rs ← normalizeOffers currency rest
    match r with
    | none => pure rs
    | some row => pure (row :: rs)

/-- `date.isoformat()` on a day ordinal: an injective textual rendering. -/
def dateIso (d : Int) : String := toString d

/-- The `params` dict sent to `GET /v2/shopping/flight-offers`. -/
structure QueryParams where
  originLocationCode : String
  destinationLocationCode : String
  departureDate : String
  adults : Nat
  currencyCode : String
  max : Nat
  returnDate : Option String
deriving DecidableEq, Repr

/-- Query building of `search` (src/tools/amadeus.py lines 33-43):
`returnDate` is added only when `date_to` is present (truthy) and differs
from `date_from`. -/
def buildParams (origin destination : String) (date_from : Int)
    (date_to : Option Int) (adults : Nat) (currency : String)
    (max_results : Nat) : QueryParams :=
  { originLocationCode := origin,
    destinationLocationCode := destination,
    departureDate := dateIso date_from,
    adults := adults,
    currencyCode := currency,
    max := max_results,
    returnDate :=
      match date_to with
      | some d2 => if d2 ≠ date_from then some (dateIso d2) else none
      | none => none }

/-- The flight-offer search requests one call of `search` issues: exactly
the single `requests.get` of src/tools/amadeus.py line 46. -/
def searchRequests (origin destination : String) (date_from : Int)
    (date_to : Option Int) (adults : Nat) (currency : String)
    (max_results : Nat) : List QueryParams :=
  [buildParams origin destination date_from date_to adults currency
    max_results]

/-! ## Orchestrator (src/agents.py, `Orchestrator.handle`)

The four external capabilities are oracle fields of a `HandleEnv`:
`dateOracle` for dateparser, `search` for `self.flights.search` (its
`Except` error value is the message of the caught Python exception `e`),
`chat` for `GPTAgent.chat` and `translate` for `ClaudeAgent.translate`.
`chat` and `translate` are total functions: the claims below are about runs
in which generation and translation succeed (their failures would propagate,
which is outside this model).  `today` is `dt.date.today()`. -/

/-- One chat message dict. -/
structure Msg where
  role : String
  content : String
deriving DecidableEq, Repr

/-- The keyword arguments of one `self.flights.search(...)` invocation. -/
structure SearchCall where
  origin : String
  destination : String
  date_from : Int
  date_to : Int
  adults : Nat
  currency : String
deriving DecidableEq, Repr

/-- The external world of one `handle` call. -/
structure HandleEnv where
  dateOracle : String → Option Int
  today : Int
  search : SearchCall → Except String (List FlightRow)
  chat : List Msg → String
  translate : String → String → String

/-- Outcome of the `flight_search` block (src/agents.py lines 176-197):
`tool_results`, `tool_note`, `dest_label`, plus the instrumentation field
`calls` recording the Gateway invocations the block issued. -/
structure FlightStep where
  tool_results : List FlightRow
  tool_note : Option String
  dest_label : Option String
  calls : List SearchCall
deriving Repr

/-- `intent.destination or _IATA_TO_CITY.get(dest_code, dest_code)`:
Python `or` takes the left operand unless it is falsy (None or ""). -/
def destLabel (destination : Option String) (dest_code : String) : String :=
  match destination with
  | some d => if d ≠ "" then d else dictGet _IATA_TO_CITY dest_code dest_code
  | none => dictGet _IATA_TO_CITY dest_code dest_code

/-- The keyword arguments of the `self.flights.search(...)` call `handle`
builds on a `flight_search` intent (src/agents.py lines 177-195): origin
resolved with fallback "IST", destination with fallback "LON", missing
`date_from` defaulted to seven days from today, missing `date_to` defaulted
to `date_from`. -/
def expectedCall (env : HandleEnv) (intent : ParsedIntent) : SearchCall :=
  { origin := to_iata intent.origin "IST",
    destination := to_iata intent.destination "LON",
    date_from := intent.date_from.getD (env.today + 7),
    date_to := intent.date_to.getD (intent.date_from.getD (env.today + 7)),
    adults := intent.adults,
    currency := intent.currency }

/-- The `flight_search` block of `handle`. -/
def runFlightStep (env : HandleEnv) (intent : ParsedIntent) : FlightStep :=
  if intent.intent = "flight_search" then
    if to_iata intent.destination "LON" = "" then
      { tool_results := [],
        tool_note := some "Could not resolve destination. Please specify a city/airport (IATA code).",
        dest_label :=
          some (destLabel intent.destination (to_iata intent.destination "LON")),
        calls := [] }
    else
      match env.search (expectedCall env intent) with
      | .ok rs =>
        { tool_results := rs, tool_note := none,
          dest_label :=
            some (destLabel intent.destination (to_iata intent.destination "LON")),
          calls := [expectedCall env intent] }
      | .error e =>
        { tool_results := [], tool_note := some ("Flight search failed: " ++ e),
          dest_label :=
            some (destLabel intent.destination (to_iata intent.destination "LON")),
          calls := [expectedCall env intent] }
  else
    { tool_results := [], tool_note := none, dest_label := none, calls := [] }

/-- The fixed system prompt of `handle`. -/
def sys_prompt : String :=
  "You are a travel planning assistant. If the user asked for flights, summarize options briefly. Include links if available."

/-- The bulleted summary of the first five rows. -/
def bullets (rows : List FlightRow) : String :=
  String.intercalate "\n"
    ((rows.take 5).map (fun r =>
      "- " ++ r.date ++ " " ++ r.departure_time ++ " " ++ r.origin ++ " → " ++
        r.destination ++ " — " ++ pyShowOpt r.airline ++ " — " ++ r.price))

/-- The tuple `handle` returns. -/
structure HandleResult where
  base_reply : String
  translated : Option String
  tool_results : List FlightRow
  dest_label : Option String
deriving Repr

/-- `Orchestrator.handle` (src/agents.py lines 162-228), instrumented with
the list of Gateway invocations it issued.  Total given the env's total
`chat`/`translate`: the only caught exception is the flight search's. -/
def handleCore (env : HandleEnv) (user_text : String)
    (want_translation : Bool) (target_lang : String) :
    HandleResult × List SearchCall :=
  let intent := parse_user_message env.dateOracle user_text
  let step := runFlightStep env intent
  let messages := [Msg.mk "system" sys_prompt, Msg.mk "user" user_text]
  let messages :=
    if step.tool_results.isEmpty then messages
    else messages ++ [Msg.mk "system" ("Flight summaries:\n" ++ bullets step.tool_results)]
  let base_reply := env.chat messages
  let base_reply :=
    if !step.tool_results.isEmpty &&
        !containsSub base_reply.data "Flight summaries".data then
      base_reply ++ "\n\n(See the options listed above.)"
    else base_reply
  let base_reply :=
    match step.tool_note with
    | some n => base_reply ++ "\n\nNote: " ++ n
    | none => base_reply
  let translated :=
    if want_translation then some (env.translate base_reply target_lang)
    else none
  ({ base_reply := base_reply, translated := translated,
     tool_results := step.tool_results, dest_label := step.dest_label },
   step.calls)

/-! ## Helper lemmas -/

theorem extractCities_nil {lower : List Char} (h : findAll lower = []) :
    extractCities lower = (none, none) := by
  simp [extractCities, h]

theorem extractCities_single {lower : List Char} {c : List Char}
    (h : findAll lower = [c]) :
    extractCities lower = (none, some (String.mk c)) := by
  simp [extractCities, h]

theorem mem_of_pyIsAlpha {c : Char} (h : pyIsAlpha c = true) :
    c ∈ lowerAlpha ∨ c ∈ upperAlpha := by
  simp only [pyIsAlpha, List.contains, Bool.or_eq_true, List.elem_iff] at h
  exact h

theorem pyUpperChar_facts {c : Char} (h : pyIsAlpha c = true) :
    pyIsAlpha (pyUpperChar c) = true ∧
    pyUpperChar (pyUpperChar c) = pyUpperChar c := by
  have hall : ∀ x ∈ lowerAlpha ++ upperAlpha,
      (pyIsAlpha (pyUpperChar x) &&
        (pyUpperChar (pyUpperChar x) == pyUpperChar x)) = true := by decide
  rcases mem_of_pyIsAlpha h with hm | hm
  · simpa using hall c (List.mem_append_left _ hm)
  · simpa using hall c (List.mem_append_right _ hm)

theorem not_ws_of_pyIsAlpha {c : Char} (h : pyIsAlpha c = true) :
    Char.isWhitespace c = false := by
  have hall : ∀ x ∈ lowerAlpha ++ upperAlpha,
      Char.isWhitespace x = false := by decide
  rcases mem_of_pyIsAlpha h with hm | hm
  · exact hall c (List.mem_append_left _ hm)
  · exact hall c (List.mem_append_right _ hm)

theorem pyStrip_eq_self {l : List Char}
    (h : ∀ c ∈ l, Char.isWhitespace c = false) : pyStrip l = l := by
  unfold pyStrip
  have h1 : l.dropWhile Char.isWhitespace = l := by
    rw [List.dropWhile_eq_self_iff]
    intro hl hp
    rw [h _ (List.get_mem l _ hl)] at hp
    exact Bool.false_ne_true hp
  rw [h1]
  have h2 : l.reverse.dropWhile Char.isWhitespace = l.reverse := by
    rw [List.dropWhile_eq_self_iff]
    intro hl hp
    have hm : l.reverse.get ⟨0, hl⟩ ∈ l :=
      List.mem_reverse.mp (List.get_mem l.reverse _ hl)
    rw [h _ hm] at hp
    exact Bool.false_ne_true hp
  rw [h2, List.reverse_reverse]

/-! ## Theorems for the claims -/

/-- C3: for every message containing zero recognized location keywords,
`parse_user_message` returns intent `chitchat` with origin, destination,
`date_from` and `date_to` unset, regardless of any other content (flight
keywords, dates) and of the date interpreter's behaviour. -/
theorem c3_no_location_chitchat (dateOracle : String → Option Int)
    (msg : String) (h : findAll (pyLower (pyStrip msg.data)) = []) :
    parse_user_message dateOracle msg =
      { intent := "chitchat", origin := none, destination := none,
        date_from := none, date_to := none, adults := 1,
        currency := "EUR" } := by
  unfold parse_user_message
  simp [extractCities_nil h]

/-- Witness for C3: a message with a flight keyword and a date phrase but no
recognized location parses to `chitchat`. -/
theorem c3_witness :
    findAll (pyLower (pyStrip "Flight tomorrow 12 may please".data)) = [] ∧
    parse_user_message (fun _ => some 3) "Flight tomorrow 12 may please" =
      { intent := "chitchat", origin := none, destination := none,
        date_from := none, date_to := none, adults := 1,
        currency := "EUR" } :=
  ⟨by decide, c3_no_location_chitchat (fun _ => some 3) _ (by decide)⟩

/-- C4: for every message containing at least one flight keyword and whose
city scan finds exactly one match, `parse_user_message` returns intent
`flight_search` with that city as destination and origin unset. -/
theorem c4_single_city_destination (dateOracle : String → Option Int)
    (msg : String) (c : List Char)
    (hc : findAll (pyLower (pyStrip msg.data)) = [c])
    (hk : hasKeyword (pyLower (pyStrip msg.data)) = true) :
    (parse_user_message dateOracle msg).intent = "flight_search" ∧
    (parse_user_message dateOracle msg).destination = some (String.mk c) ∧
    (parse_user_message dateOracle msg).origin = none := by
  unfold parse_user_message
  simp [extractCities_single hc, hk]

/-- Witness for C4: "Fly to Paris" has the keyword "fly" and the single city
match "paris". -/
theorem c4_witness :
    findAll (pyLower (pyStrip "Fly to Paris".data)) = ["paris".data] ∧
    hasKeyword (pyLower (pyStrip "Fly to Paris".data)) = true ∧
    (parse_user_message (fun _ => none) "Fly to Paris").intent =
      "flight_search" ∧
    (parse_user_message (fun _ => none) "Fly to Paris").destination =
      some "paris" ∧
    (parse_user_message (fun _ => none) "Fly to Paris").origin = none := by
  refine ⟨by decide, by decide, ?_⟩
  exact c4_single_city_destination (fun _ => none) "Fly to Paris" "paris".data
    (by decide) (by decide)

/-- C5: on an input of exactly three alphabetic characters, `to_iata`
returns the input upper-cased for every default; in particular
`to_iata "IST" X = "IST"`, and re-applying `to_iata` to its own result with
any default leaves it unchanged. -/
theorem c5_resolveCode_idempotent (s X Y : String)
    (h3 : s.data.length = 3) (ha : ∀ c ∈ s.data, pyIsAlpha c = true) :
    to_iata (some s) X = String.mk (s.data.map pyUpperChar) ∧
    to_iata (some "IST") X = "IST" ∧
    to_iata (some (to_iata (some s) X)) Y = to_iata (some s) X := by
  have key : ∀ (t Z : String), t.data.length = 3 →
      (∀ c ∈ t.data, pyIsAlpha c = true) →
      to_iata (some t) Z = String.mk (t.data.map pyUpperChar) := by
    intro t Z ht hta
    have hne : t.data.isEmpty = false := by
      cases htd : t.data with
      | nil => rw [htd] at ht; simp at ht
      | cons a l => simp
    have hstrip : pyStrip t.data = t.data :=
      pyStrip_eq_self (fun c hc => not_ws_of_pyIsAlpha (hta c hc))
    unfold to_iata
    simp [hne, hstrip, ht, List.all_eq_true.mpr hta]
  refine ⟨key s X h3 ha, by rfl, ?_⟩
  rw [key s X h3 ha]
  have h3' : (String.mk (s.data.map pyUpperChar)).data.length = 3 := by
    simpa using h3
  have ha' : ∀ c ∈ (String.mk (s.data.map pyUpperChar)).data,
      pyIsAlpha c = true := by
    intro c hc
    simp only [String.mk] at hc
    obtain ⟨a, haa, rfl⟩ := List.mem_map.mp hc
    exact (pyUpperChar_facts (ha a haa)).1
  rw [key _ Y h3' ha']
  have : (String.mk (s.data.map pyUpperChar)).data = s.data.map pyUpperChar :=
    rfl
  rw [this, List.map_map]
  exact congrArg String.mk
    (List.map_congr_left (fun a haa => (pyUpperChar_facts (ha a haa)).2))

/-- Witness for C5, at the lower-case input "ist". -/
theorem c5_witness :
    "ist".data.length = 3 ∧ (∀ c ∈ "ist".data, pyIsAlpha c = true) ∧
    to_iata (some "ist") "LON" = "IST" ∧
    to_iata (some "IST") "LON" = "IST" ∧
    to_iata (some (to_iata (some "ist") "LON")) "ESB" =
      to_iata (some "ist") "LON" := by
  refine ⟨by decide, by decide, ?_⟩
  have h := c5_resolveCode_idempotent "ist" "LON" "ESB" (by decide) (by decide)
  exact ⟨by rw [h.1]; rfl, h.2.1, h.2.2⟩

/-- C6: an input that is neither a three-letter alphabetic code nor (after
lower-casing) a key of `_IATA_LUT` resolves to exactly the supplied default;
no exception is possible (`to_iata` is a total function).  Both hypotheses
are stated on the whitespace-stripped input, which is what the code
examines. -/
theorem c6_unknown_returns_default (s X : String)
    (hna : ((pyStrip s.data).length == 3 &&
      (pyStrip s.data).all pyIsAlpha) = false)
    (hmiss : _IATA_LUT.find?
      (fun kv => kv.1 == String.mk (pyLower (pyStrip s.data))) = none) :
    to_iata (some s) X = X := by
  unfold to_iata dictGet
  cases he : s.data.isEmpty with
  | true => simp [he]
  | false => simp [he, hna, hmiss]

/-- Witness for C6 at the unrecognized city name "Atlantis". -/
theorem c6_witness :
    ((pyStrip "Atlantis".data).length == 3 &&
      (pyStrip "Atlantis".data).all pyIsAlpha) = false ∧
    _IATA_LUT.find?
      (fun kv => kv.1 == String.mk (pyLower (pyStrip "Atlantis".data))) =
        none ∧
    to_iata (some "Atlantis") "SAW" = "SAW" := by
  refine ⟨by decide, by decide, ?_⟩
  exact c6_unknown_returns_default "Atlantis" "SAW" (by decide) (by decide)

/-- C7: each `search` call issues exactly one request, built by
`buildParams`; its query has no `returnDate` when `date_to` is absent or
equal to `date_from` (one-way), and carries `date_to` as `returnDate`
otherwise (round-trip). -/
theorem c7_one_request_return_date (origin destination : String)
    (date_from : Int) (date_to : Option Int) (adults : Nat)
    (currency : String) (max_results : Nat) :
    (searchRequests origin destination date_from date_to adults currency
      max_results).length = 1 ∧
    searchRequests origin destination date_from date_to adults currency
        max_results =
      [buildParams origin destination date_from date_to adults currency
        max_results] ∧
    ((date_to = none ∨ date_to = some date_from) →
      (buildParams origin destination date_from date_to adults currency
        max_results).returnDate = none) ∧
    (∀ d2, date_to = some d2 → d2 ≠ date_from →
      (buildParams origin destination date_from date_to adults currency
        max_results).returnDate = some (dateIso d2)) := by
  refine ⟨rfl, rfl, ?_, ?_⟩
  · rintro (rfl | rfl)
    · rfl
    · simp [buildParams]
  · rintro d2 rfl hne
    simp [buildParams, hne]

/-- Witness for C7: a round-trip query (`date_to = 12 ≠ 10`) and the request
count. -/
theorem c7_witness :
    (searchRequests "IST" "LON" 10 (some 12) 1 "EUR" 10).length = 1 ∧
    (buildParams "IST" "LON" 10 (some 12) 1 "EUR" 10).returnDate =
      some (dateIso 12) := by
  have h := c7_one_request_return_date "IST" "LON" 10 (some 12) 1 "EUR" 10
  exact ⟨h.1, h.2.2.2 12 rfl (by decide)⟩

/-- `normalizeOffer` succeeding means its result is exactly the row built
from the first segment of the offer's first itinerary. -/
theorem normalizeOffer_ok {currency : String} {o : RawOffer}
    {r : Option FlightRow} (h : normalizeOffer currency o = .ok r) :
    (firstLeg? o).bind (rowFromLeg currency o.grandTotal) = r := by
  obtain ⟨its, total⟩ := o
  unfold normalizeOffer at h
  unfold firstLeg?
  dsimp only at h ⊢
  cases its with
  | nil => cases h; rfl
  | cons it rest =>
    obtain ⟨segs⟩ := it
    dsimp only at h ⊢
    cases segs with
    | nil => cases h
    | cons leg segs' =>
      dsimp only at h
      cases hrow : rowFromLeg currency total leg with
      | none => rw [hrow] at h; cases h
      | some row => rw [hrow] at h; cases h; simp [hrow]

/-- A successful normalization run equals the order-preserving `filterMap`
of the per-offer first-leg row. -/
theorem normalizeOffers_ok_eq {currency : String} {offers : List RawOffer}
    {rows : List FlightRow} (h : normalizeOffers currency offers = .ok rows) :
    rows = offers.filterMap
      (fun o => (firstLeg? o).bind (rowFromLeg currency o.grandTotal)) := by
  induction offers generalizing rows with
  | nil =>
    unfold normalizeOffers at h
    cases h
    rfl
  | cons o rest ih =>
    unfold normalizeOffers at h
    cases ho : normalizeOffer currency o with
    | error e => rw [ho] at h; cases h
    | ok r =>
      rw [ho] at h
      cases hrest : normalizeOffers currency rest with
      | error e => rw [hrest] at h; cases h
      | ok rs =>
        rw [hrest] at h
        have hr := normalizeOffer_ok ho
        cases r with
        | none =>
          cases h
          simp [List.filterMap_cons, hr, ih hrest]
        | some row =>
          cases h
          simp [List.filterMap_cons, hr, ih hrest]

/-- Counterexample for C1 as stated: a raw response containing one offer
whose (single) itinerary has no segments.  The claim says such an offer is
excluded from the output; the code only skips offers whose `itineraries`
list is empty and evaluates `itineraries[0]["segments"][0]` on this one, so
the whole call raises `IndexError` and produces no output at all. -/
theorem c1_counterexample :
    normalizeOffers "EUR"
      [{ itineraries := [{ segments := [] }], grandTotal := some "100.00" }] =
      .error () := by rfl

/-- C1 (amended): offers with an empty `itineraries` list are excluded, but
an offer whose first itinerary has no segments makes the whole call raise;
whenever the call returns, the output is the order-preserving `filterMap` of
the offers through the row built from the first segment of the first
itinerary only, and hence has at most one row per raw offer. -/
theorem c1_first_segment_normalization (currency : String)
    (offers : List RawOffer) (rows : List FlightRow)
    (h : normalizeOffers currency offers = .ok rows) :
    rows.length ≤ offers.length ∧
    rows = offers.filterMap
      (fun o => (firstLeg? o).bind (rowFromLeg currency o.grandTotal)) ∧
    ∀ o ∈ offers, o.itineraries = [] →
      (firstLeg? o).bind (rowFromLeg currency o.grandTotal) = none := by
  have he := normalizeOffers_ok_eq h
  refine ⟨?_, he, ?_⟩
  · rw [he]
    exact List.length_filterMap_le _ _
  · intro o _ hit
    simp [firstLeg?, hit]

/-- Witness for C1 (amended): a response with one no-itinerary offer and one
well-formed offer normalizes to the single first-leg row. -/
theorem c1_witness :
    normalizeOffers "EUR"
      [{ itineraries := [], grandTotal := none },
       { itineraries :=
           [{ segments :=
                [{ depAt := "2025-03-01T10:30:00", depIata := "IST",
                   arrAt := "2025-03-01T12:45:00", arrIata := "LON",
                   carrierCode := some "TK" }] }],
         grandTotal := some "123.45" }] =
      .ok [{ date := "2025-03-01", departure_time := "10:30",
             arrival_time := "12:45", origin := "IST", destination := "LON",
             airline := some "TK", price := "123.45 EUR", link := "" }] ∧
    [({ date := "2025-03-01", departure_time := "10:30",
        arrival_time := "12:45", origin := "IST", destination := "LON",
        airline := some "TK", price := "123.45 EUR", link := "" } :
        FlightRow)].length ≤ 2 := by
  refine ⟨by rfl, ?_⟩
  have h := c1_first_segment_normalization "EUR"
    [{ itineraries := [], grandTotal := none },
     { itineraries :=
         [{ segments :=
              [{ depAt := "2025-03-01T10:30:00", depIata := "IST",
                 arrAt := "2025-03-01T12:45:00", arrIata := "LON",
                 carrierCode := some "TK" }] }],
       grandTotal := some "123.45" }]
    [{ date := "2025-03-01", departure_time := "10:30",
       arrival_time := "12:45", origin := "IST", destination := "LON",
       airline := some "TK", price := "123.45 EUR", link := "" }] (by rfl)
  exact h.1

theorem dictGet_ne_empty {tbl : List (String × String)} {k d : String}
    (hd : d ≠ "") (hv : ∀ kv ∈ tbl, kv.2 ≠ "") : dictGet tbl k d ≠ "" := by
  unfold dictGet
  cases hf : tbl.find? (fun kv => kv.1 == k) with
  | none => exact hd
  | some kv => exact hv kv (List.mem_of_find?_eq_some hf)

theorem to_iata_ne_empty (c : Option String) (d : String) (hd : d ≠ "") :
    to_iata c d ≠ "" := by
  unfold to_iata
  cases c with
  | none => exact hd
  | some s =>
    simp only []
    split
    · exact hd
    · split
      · rename_i hcond
        intro hcontra
        have hdata : (pyStrip s.data).map pyUpperChar = [] :=
          congrArg String.data hcontra
        have hnil : pyStrip s.data = [] := List.map_eq_nil_iff.mp hdata
        rw [hnil] at hcond
        simp at hcond
      · exact dictGet_ne_empty hd (by decide)

theorem runFlightStep_search_error {env : HandleEnv} {intent : ParsedIntent}
    {e : String} (hi : intent.intent = "flight_search")
    (hs : env.search (expectedCall env intent) = .error e) :
    runFlightStep env intent =
      { tool_results := [],
        tool_note := some ("Flight search failed: " ++ e),
        dest_label :=
          some (destLabel intent.destination (to_iata intent.destination "LON")),
        calls := [expectedCall env intent] } := by
  unfold runFlightStep
  rw [if_pos hi, if_neg (to_iata_ne_empty intent.destination "LON" (by decide)),
    hs]

theorem runFlightStep_calls {env : HandleEnv} {intent : ParsedIntent}
    (hi : intent.intent = "flight_search") :
    (runFlightStep env intent).calls = [expectedCall env intent] := by
  unfold runFlightStep
  rw [if_pos hi, if_neg (to_iata_ne_empty intent.destination "LON" (by decide))]
  cases env.search (expectedCall env intent) <;> rfl

/-- C2: when the flight-search capability raises on every call (and
generation and translation are the env's total functions, i.e. succeed),
`handle` on a `flight_search` input returns — totality of `handleCore` is
the embedded "does not raise" — with an empty offers list and the
search-failure note appended to the generated reply. -/
theorem c2_search_failure_note (env : HandleEnv) (text target_lang : String)
    (w : Bool) (e : String)
    (hi : (parse_user_message env.dateOracle text).intent = "flight_search")
    (hs : ∀ call, env.search call = .error e) :
    (handleCore env text w target_lang).1.tool_results = [] ∧
    (handleCore env text w target_lang).1.base_reply =
      env.chat [Msg.mk "system" sys_prompt, Msg.mk "user" text] ++
        "\n\nNote: " ++ ("Flight search failed: " ++ e) := by
  have hstep := runFlightStep_search_error hi
    (hs (expectedCall env (parse_user_message env.dateOracle text)))
  simp only [handleCore, hstep]
  simp [String.append_assoc]

/-- A concrete environment whose flight search always raises. -/
def envErr : HandleEnv :=
  { dateOracle := fun _ => none, today := 0,
    search := fun _ => .error "boom",
    chat := fun _ => "ok", translate := fun _ _ => "t" }

/-- A concrete environment whose flight search succeeds with no offers. -/
def envOk : HandleEnv :=
  { dateOracle := fun _ => none, today := 0,
    search := fun _ => .ok [],
    chat := fun _ => "ok", translate := fun _ _ => "t" }

/-- Witness for C2 on the input "Fly to Paris" and the always-raising
environment. -/
theorem c2_witness :
    (handleCore envErr "Fly to Paris" false "en").1.tool_results = [] ∧
    (handleCore envErr "Fly to Paris" false "en").1.base_reply =
      envErr.chat [Msg.mk "system" sys_prompt, Msg.mk "user" "Fly to Paris"] ++
        "\n\nNote: " ++ ("Flight search failed: " ++ "boom") :=
  c2_search_failure_note envErr "Fly to Paris" "en" false "boom" (by decide)
    (fun _ => rfl)

/-- C8: on a `flight_search` intent, `handle` invokes the Flight Search
Gateway exactly once, with the origin resolved through fallback "IST", the
destination through fallback "LON", a missing `date_from` defaulted to seven
days from today, and a missing `date_to` defaulted to `date_from`. -/
theorem c8_defaults_before_search (env : HandleEnv)
    (text target_lang : String) (w : Bool)
    (hi : (parse_user_message env.dateOracle text).intent = "flight_search") :
    (handleCore env text w target_lang).2 =
      [{ origin := to_iata (parse_user_message env.dateOracle text).origin
           "IST",
         destination :=
           to_iata (parse_user_message env.dateOracle text).destination "LON",
         date_from :=
           (parse_user_message env.dateOracle text).date_from.getD
             (env.today + 7),
         date_to :=
           (parse_user_message env.dateOracle text).date_to.getD
             ((parse_user_message env.dateOracle text).date_from.getD
               (env.today + 7)),
         adults := (parse_user_message env.dateOracle text).adults,
         currency := (parse_user_message env.dateOracle text).currency }] := by
  simp only [handleCore, runFlightStep_calls hi]
  rfl

/-- Witness for C8: "Fly to Paris" with no parsed dates searches IST→PAR
seven days from today. -/
theorem c8_witness :
    (handleCore envOk "Fly to Paris" false "en").2 =
      [{ origin := to_iata (parse_user_message envOk.dateOracle
             "Fly to Paris").origin "IST",
         destination := to_iata (parse_user_message envOk.dateOracle
             "Fly to Paris").destination "LON",
         date_from := (parse_user_message envOk.dateOracle
             "Fly to Paris").date_from.getD (envOk.today + 7),
         date_to := (parse_user_message envOk.dateOracle
             "Fly to Paris").date_to.getD
           ((parse_user_message envOk.dateOracle "Fly to Paris").date_from.getD
             (envOk.today + 7)),
         adults := (parse_user_message envOk.dateOracle "Fly to Paris").adults,
         currency :=
           (parse_user_message envOk.dateOracle "Fly to Paris").currency }] :=
  c8_defaults_before_search envOk "Fly to Paris" "en" false (by decide)

/-- C9: `parse_user_message` is total for every behaviour of the date
interpreter (no interpreter outcome is propagated as an error), and an
interpreter failure — `None` from `dateparser.parse`, on either half of a
matched range or on the whole message — leaves the corresponding date bound
unset in the returned `ParsedIntent`. -/
theorem c9_dateparser_failure_unset (dateOracle : String → Option Int)
    (msg : String) :
    (∀ g1 g2, rangeSearch (pyLower (pyStrip msg.data)) = some (g1, g2) →
      (dateOracle (String.mk g1) = none →
        (parse_user_message dateOracle msg).date_from = none) ∧
      (dateOracle (String.mk g2) = none →
        (parse_user_message dateOracle msg).date_to = none)) ∧
    (rangeSearch (pyLower (pyStrip msg.data)) = none →
      dateOracle (String.mk (pyLower (pyStrip msg.data))) = none →
      (parse_user_message dateOracle msg).date_from = none ∧
      (parse_user_message dateOracle msg).date_to = none) := by
  constructor
  · intro g1 g2 hr
    constructor <;> intro ho <;>
      · unfold parse_user_message
        simp only [extractDates, hr, ho]
        split <;> rfl
  · intro hr ho
    unfold parse_user_message
    simp only [extractDates, hr, ho]
    constructor <;> (split <;> rfl)

/-- Witness for C9 on "Fly to Paris 12 may to 15 june", whose range regex
captures "12 may" and "15 june", with an interpreter that always fails. -/
theorem c9_witness :
    (parse_user_message (fun _ => none)
      "Fly to Paris 12 may to 15 june").date_from = none ∧
    (parse_user_message (fun _ => none)
      "Fly to Paris 12 may to 15 june").date_to = none := by
  have h := (c9_dateparser_failure_unset (fun _ => none)
    "Fly to Paris 12 may to 15 june").1 "12 may".data "15 june".data
    (by decide)
  exact ⟨h.1 rfl, h.2 rfl⟩

theorem flight_note_ne_resolution_note (e : String) :
    "Flight search failed: " ++ e ≠
      "Could not resolve destination. Please specify a city/airport (IATA code)." := by
  intro h
  have hd := congrArg String.data h
  rw [String.data_append] at hd
  have hF : ("Flight search failed: " : String).data =
      'F' :: "light search failed: ".data := rfl
  have hC : ("Could not resolve destination. Please specify a city/airport (IATA code)." : String).data =
      'C' :: "ould not resolve destination. Please specify a city/airport (IATA code).".data := rfl
  rw [hF, hC, List.cons_append] at hd
  have : 'F' = 'C' := List.head_eq_of_cons_eq hd
  exact absurd this (by decide)

/-- C10: `to_iata` never returns an empty string when the default is
non-empty; consequently in `handle` the destination resolved with fallback
"LON" is non-empty, the "Could not resolve destination" note can never be
recorded, and every `flight_search` intent issues a Gateway invocation. -/
theorem c10_dest_branch_unreachable :
    (∀ c d, d ≠ "" → to_iata c d ≠ "") ∧
    ∀ env text,
      (parse_user_message env.dateOracle text).intent = "flight_search" →
      (runFlightStep env (parse_user_message env.dateOracle text)).tool_note ≠
        some "Could not resolve destination. Please specify a city/airport (IATA code)." ∧
      (runFlightStep env (parse_user_message env.dateOracle text)).calls ≠
        [] := by
  refine ⟨fun c d hd => to_iata_ne_empty c d hd, ?_⟩
  intro env text hi
  unfold runFlightStep
  rw [if_pos hi, if_neg (to_iata_ne_empty _ "LON" (by decide))]
  cases env.search (expectedCall env (parse_user_message env.dateOracle text))
    with
  | ok rs =>
    constructor
    · intro h
      exact Option.noConfusion h
    · intro h
      exact List.noConfusion h
  | error e =>
    constructor
    · intro h
      exact flight_note_ne_resolution_note e (Option.some.inj h)
    · intro h
      exact List.noConfusion h

/-- Witness for C10 with the always-succeeding environment on "Fly to
Paris". -/
theorem c10_witness :
    to_iata none "LON" ≠ "" ∧
    (runFlightStep envOk
      (parse_user_message envOk.dateOracle "Fly to Paris")).tool_note ≠
      some "Could not resolve destination. Please specify a city/airport (IATA code)." ∧
    (runFlightStep envOk
      (parse_user_message envOk.dateOracle "Fly to Paris")).calls ≠ [] :=
  ⟨c10_dest_branch_unreachable.1 none "LON" (by decide),
   c10_dest_branch_unreachable.2 envOk "Fly to Paris" (by decide)⟩
